import Mathlib

/-!
Verification of the event-correlation and subscription-routing engine of a
Teams bot app. The definitions below are a shallow embedding of the
TypeScript source:

  src/utils/botHandler.ts                      (classifier + dispatcher)
  src/blocks/messaging/sendMessage.ts          (registration + internal handler)
  src/blocks/subscriptions/subscribeToReplies.ts (registration + internal handler)
  src/blocks/subscriptions/mentionsSubscription.ts

JavaScript optional string fields are modelled as Option String; the
JavaScript truthiness test on such a field is strTruthy below (undefined
and the empty string are falsy). The external key-value store is modelled
as an association list with upsert semantics, and the block registry as a
list of block records.
-/

namespace TeamsBot

/-- JavaScript truthiness of an optional string: undefined and the empty
string are falsy, every other string is truthy. -/
def strTruthy : Option String → Bool
  | none => false
  | some s => s != ""

/-- Substring containment on character lists (JavaScript String.includes). -/
def hasSubstr (hay needle : List Char) : Bool :=
  match hay with
  | [] => needle.isEmpty
  | _ :: t => needle.isPrefixOf hay || hasSubstr t needle

/-- JavaScript s.includes(sub). -/
def includesSub (s sub : String) : Bool :=
  hasSubstr s.data sub.data

/-- JavaScript botId.replace(regex-caret-28-colon, empty): strips one
leading occurrence of the bot-id prefix 28: when present. -/
def stripBotPfx (s : String) : String :=
  if ("28:".data).isPrefixOf s.data then String.mk (s.data.drop 3) else s

/-- Maximal leading run of decimal digits (the greedy digit capture group). -/
def digitRun : List Char → List Char
  | [] => []
  | c :: cs => if c.isDigit then c :: digitRun cs else []

/-- The literal pattern text of the reply-detection regular expression. -/
def msgIdPat : List Char := ";messageid=".data

/-- Leftmost match of the regular expression ;messageid=(digits) over a
character list: finds the first position where the literal pattern is
followed by at least one digit and captures the maximal digit run. -/
def findMsgIdAux : List Char → Option (List Char)
  | [] => none
  | c :: cs =>
    if msgIdPat.isPrefixOf (c :: cs) then
      match (c :: cs).drop msgIdPat.length with
      | [] => findMsgIdAux cs
      | d :: ds => if d.isDigit then some (d :: digitRun ds) else findMsgIdAux cs
    else findMsgIdAux cs

/-- JavaScript conversationId.match(regex ;messageid=(digits)), returning
the captured digit group of the first match. -/
def findMsgId (s : String) : Option String :=
  (findMsgIdAux s.data).map String.mk

/-- Split a character list on a separator character (JavaScript
String.split with a single-character separator). -/
def splitCharsOn (sep : Char) : List Char → List (List Char)
  | [] => [[]]
  | c :: cs =>
    match splitCharsOn sep cs with
    | [] => [[c]]
    | h :: t => if c == sep then [] :: h :: t else (c :: h) :: t

/-- JavaScript key.split(pipe)[2]: the third pipe-separated segment of a
key (the subscriber-id segment of an index key). -/
def splitSeg (k : String) : String :=
  (((splitCharsOn '|' k.data).map String.mk).getD 2 "")

/-- JavaScript String.startsWith, used for prefix-range listing. -/
def strStartsWith (s pfx : String) : Bool :=
  pfx.data.isPrefixOf s.data

/-! ### Key-value store model

The external store (kv.app, shared scope, Bool marker values; kv.block,
handle-local scope, String event-id values) is modelled as an association
list with upsert semantics: set replaces the value at an existing key and
otherwise appends the pair. -/

/-- kv set: upsert a key-value pair (replace the first matching key,
otherwise append). -/
def kvSet : List (String × α) → String → α → List (String × α)
  | [], k, v => [(k, v)]
  | (k0, v0) :: rest, k, v =>
    if k0 == k then (k, v) :: rest else (k0, v0) :: kvSet rest k v

/-- kv get: the value stored at a key, if any. -/
def kvGet : List (String × α) → String → Option α
  | [], _ => none
  | (k0, v0) :: rest, k => if k0 == k then some v0 else kvGet rest k

/-- Shared-scope store: key to boolean-marker pairs. -/
abbrev KVApp := List (String × Bool)

/-- Handle-local store of one block: anchor-id to originating-event-id. -/
abbrev KVBlock := List (String × String)

/-- kv.app.list with a key prefix: all pairs whose key starts with the
prefix, in store order. -/
def kvListPfx (st : KVApp) (pfx : String) : List (String × Bool) :=
  st.filter (fun p => strStartsWith p.1 pfx)

/-- Write one subscription-index marker key namespace-pipe-anchor-pipe-
subscriber mapped to true (kv.app.set in sendMessage.ts line 99 and
subscribeToReplies.ts line 27). -/
def registerIndex (kvA : KVApp) (ns anchor sub : String) : KVApp :=
  kvSet kvA (ns ++ "|" ++ anchor ++ "|" ++ sub) true

/-- Range-scan the shared store under a prefix and take the third
pipe-separated segment of each key (botHandler.ts lines 144-147, 182-184,
227-229, 301-303). -/
def lookupSubs (kvA : KVApp) (pfx : String) : List String :=
  (kvListPfx kvA pfx).map (fun p => splitSeg p.1)

/-- Subscription-index lookup for a namespace and anchor. -/
def lookupIndex (kvA : KVApp) (ns anchor : String) : List String :=
  lookupSubs kvA (ns ++ "|" ++ anchor ++ "|")

/-! ### Data model -/

/-- A mention entity of an activity (entity type plus the mentioned id,
the flattening of the accessed path m.mentioned.id). -/
structure Entity where
  type : String
  mentionedId : Option String
deriving DecidableEq, Repr

/-- One reaction marker from reactionsAdded or reactionsRemoved. -/
structure ReactionMark where
  type : String
deriving DecidableEq, Repr

/-- A registered block of the block registry as returned by blocks.list:
its id, type id, and the one configuration field the dispatcher reads
(block.config.channelId of mention-subscription blocks). -/
structure Block where
  id : String
  typeId : String
  channelId : Option String
deriving DecidableEq, Repr

/-- An inbound Bot Framework activity, flattened to the fields the
handlers access: conversationId is activity.conversation.id, fromId is
activity.from.id, teamsChannelId is activity.channelData.teamsChannelId,
value is the structured action payload (present means truthy), entities
and reaction lists default to empty (the JavaScript or-empty idiom). -/
structure Activity where
  type : String
  id : Option String
  replyToId : Option String
  conversationId : Option String
  fromId : Option String
  fromName : Option String
  name : Option String
  text : Option String
  value : Option String
  entities : List Entity
  reactionsAdded : List ReactionMark
  reactionsRemoved : List ReactionMark
  teamsChannelId : Option String
  timestamp : Option String
deriving DecidableEq, Repr

/-- The normalized payload body of one messaging.sendToBlocks call, one
constructor per body type string (mention, action, reply, reaction), each
carrying the fields the source places in the body (the whole activity
plus the flattened extra fields). -/
inductive Body where
  | mention (activity : Activity) (text : Option String) (fromId : Option String)
      (conversationId : Option String) (teamsChannelId : Option String)
      (timestamp : Option String)
  | action (actionId : Option String) (actionData : String) (activity : Activity)
      (fromId : Option String) (activityId : String) (conversationId : Option String)
      (timestamp : Option String)
  | reply (activity : Activity) (text : Option String) (fromId : Option String)
      (replyToId : String) (conversationId : String) (teamsChannelId : Option String)
      (timestamp : Option String)
  | reaction (action : String) (reactionType : String) (activity : Activity)
      (fromId : Option String) (activityId : String) (conversationId : Option String)
      (teamsChannelId : Option String) (timestamp : Option String)
deriving DecidableEq, Repr

/-- One messaging.sendToBlocks call: the target block ids and the body. -/
structure Send where
  blockIds : List String
  body : Body
deriving DecidableEq, Repr

/-- The type field of a body. -/
def bodyTypeOf : Body → String
  | .mention .. => "mention"
  | .action .. => "action"
  | .reply .. => "reply"
  | .reaction .. => "reaction"

/-- data.activityId of a delivered body (undefined on mention and reply
bodies, which carry no activityId field). -/
def bodyActivityId : Body → Option String
  | .action _ _ _ _ aid _ _ => some aid
  | .reaction _ _ _ _ aid _ _ _ => some aid
  | _ => none

/-- data.conversationId of a delivered body (undefined on mention bodies,
which carry a conversation object instead). -/
def bodyConversationId : Body → Option String
  | .mention .. => none
  | .action _ _ _ _ _ cid _ => cid
  | .reply _ _ _ _ cid _ _ => some cid
  | .reaction _ _ _ _ _ cid _ _ => cid

/-- data.from.id of a delivered body. -/
def bodyFromId : Body → Option String
  | .mention _ _ f _ _ _ => f
  | .action _ _ _ f _ _ _ => f
  | .reply _ _ f _ _ _ _ => f
  | .reaction _ _ _ f _ _ _ _ => f

/-- data.timestamp of a delivered body. -/
def bodyTimestamp : Body → Option String
  | .mention _ _ _ _ _ ts => ts
  | .action _ _ _ _ _ _ ts => ts
  | .reply _ _ _ _ _ _ ts => ts
  | .reaction _ _ _ _ _ _ _ ts => ts

/-- data.text of a delivered body. -/
def bodyText : Body → Option String
  | .mention _ t _ _ _ _ => t
  | .reply _ t _ _ _ _ _ => t
  | _ => none

/-- data.reactionType of a delivered body. -/
def bodyReactionType : Body → Option String
  | .reaction _ rt _ _ _ _ _ _ => some rt
  | _ => none

/-- data.action of a delivered reaction body. -/
def bodyAction : Body → Option String
  | .reaction ac _ _ _ _ _ _ _ => some ac
  | _ => none

/-- data.actionId of a delivered action body. -/
def bodyActionId : Body → Option String
  | .action aid _ _ _ _ _ _ => aid
  | _ => none

/-- data.actionData of a delivered action body. -/
def bodyActionData : Body → Option String
  | .action _ ad _ _ _ _ _ => some ad
  | _ => none

/-- data.activity of a delivered body. -/
def bodyActivity : Body → Activity
  | .mention a _ _ _ _ _ => a
  | .action _ _ a _ _ _ _ => a
  | .reply a _ _ _ _ _ _ => a
  | .reaction _ _ a _ _ _ _ _ => a

/-- Flatten sends into individual per-subscriber deliveries. -/
def deliveries (sends : List Send) : List (String × Body) :=
  sends.flatMap (fun s => s.blockIds.map (fun i => (i, s.body)))

/-! ### The message handler (botHandler.ts, handleMessageActivity) -/

/-- botHandler.ts lines 69-75: the entities of the activity filtered to
mention entities, tested for a mentioned id containing the bot-id prefix
28: (the source tests containment of the prefix string, not equality with
the id of this bot). -/
def botMentioned (a : Activity) : Bool :=
  ((a.entities.filter (fun e => e.type == "mention")).any (fun m =>
    match m.mentionedId with
    | some i => includesSub i "28:"
    | none => false))

/-- botHandler.ts lines 88-93: the channel filter applied to one mention
block: no configured channelId (undefined or empty, both falsy) keeps the
block; a configured one keeps it only on strict equality with the
activity channel id. -/
def mentionBlockKeeps (chan : Option String) (b : Block) : Bool :=
  match b.channelId with
  | none => true
  | some s => s == "" || some s == chan

/-- botHandler.ts lines 86-94: ids of mention-subscription blocks passing
the channel filter for a given activity channel id. -/
def mentionTargets (chan : Option String) (reg : List Block) : List String :=
  ((reg.filter (fun b => b.typeId == "mentionsSubscription")).filter
    (mentionBlockKeeps chan)).map (fun b => b.id)

/-- botHandler.ts lines 77-109: the mention part of the message handler.
When the bot is mentioned and at least one mention block exists and
passes the filter, one sendToBlocks call with the mention body goes to
the passing block ids. -/
def mentionSends (a : Activity) (reg : List Block) : List Send :=
  if botMentioned a then
    if (reg.filter (fun b => b.typeId == "mentionsSubscription")).length > 0 then
      let targetIds := mentionTargets a.teamsChannelId reg
      if targetIds.length > 0 then
        [⟨targetIds, Body.mention a a.text a.fromId a.conversationId
          a.teamsChannelId a.timestamp⟩]
      else []
    else []
  else []

/-- botHandler.ts lines 111-128: derivation of replyToId. The explicit
field is preferred when truthy; otherwise, when the conversation id and
the activity id are truthy and the conversation id matches the
messageid pattern with a captured value differing from the activity id,
the captured value is used; otherwise the (falsy) explicit field stands. -/
def messageReplyTargetId (a : Activity) : Option String :=
  if strTruthy a.replyToId then a.replyToId
  else
    match a.conversationId, a.id with
    | some cid, some aid =>
      if cid != "" && aid != "" then
        match findMsgId cid with
        | some mid => if mid != aid then some mid else a.replyToId
        | none => a.replyToId
      else a.replyToId
    | _, _ => a.replyToId

/-- botHandler.ts lines 131-136: whether the activity sender is the bot
itself (truthy from id containing the bot app id, the bot id with its
28: prefix stripped). -/
def isFromBotCheck (a : Activity) (botId : String) : Bool :=
  match a.fromId with
  | some f => f != "" && includesSub f (stripBotPfx botId)
  | none => false

/-- Ids of registry blocks of one type id (blocks.list with typeIds
followed by mapping to ids; membership in this list is the Set.has test
of the source). -/
def liveIds (reg : List Block) (ty : String) : List String :=
  (reg.filter (fun b => b.typeId == ty)).map (fun b => b.id)

/-- botHandler.ts lines 130-213: the reply part of the message handler.
With a truthy derived reply target and a sender that is not the bot: a
truthy structured value routes one action send to the subscribers of the
events index under the reply target that are live sendMessage blocks;
otherwise a truthy conversation id routes one reply send to the
subscribers of the replies index under the conversation id that are live
threadSubscription blocks. -/
def replySends (a : Activity) (botId : String) (kvA : KVApp) (reg : List Block) :
    List Send :=
  let rT := messageReplyTargetId a
  if strTruthy rT then
    let rid := rT.getD ""
    if isFromBotCheck a botId then []
    else
      match a.value with
      | some v =>
        let subs := lookupSubs kvA ("events|" ++ rid ++ "|")
        if subs.length > 0 then
          let valid := subs.filter (fun i => (liveIds reg "sendMessage").contains i)
          if valid.length > 0 then
            [⟨valid, Body.action (some (match a.name with
                | some n => if n == "" then "submit" else n
                | none => "submit")) v a a.fromId rid a.conversationId a.timestamp⟩]
          else []
        else []
      | none =>
        match a.conversationId with
        | some cid =>
          if cid != "" then
            let subs := lookupSubs kvA ("replies|" ++ cid ++ "|")
            if subs.length > 0 then
              let valid := subs.filter (fun i =>
                (liveIds reg "threadSubscription").contains i)
              if valid.length > 0 then
                [⟨valid, Body.reply a a.text a.fromId rid cid a.teamsChannelId
                  a.timestamp⟩]
              else []
            else []
          else []
        | none => []
  else []

/-- botHandler.ts lines 63-213: the whole message handler; the mention
part runs first and does not return, so its sends precede any reply-part
sends of the same activity. -/
def handleMessageActivity (a : Activity) (botId : String) (kvA : KVApp)
    (reg : List Block) : List Send :=
  mentionSends a reg ++ replySends a botId kvA reg

/-! ### The reaction and invoke handlers -/

/-- botHandler.ts lines 218-294 (handleReactionActivity): with a truthy
explicit replyToId, subscribers of the events index under it that are
live sendMessage blocks receive one reaction send per added reaction,
followed by one per removed reaction; otherwise nothing. -/
def handleReactionActivity (a : Activity) (kvA : KVApp) (reg : List Block) :
    List Send :=
  if strTruthy a.replyToId then
    let rid := a.replyToId.getD ""
    let subs := lookupSubs kvA ("events|" ++ rid ++ "|")
    if subs.length == 0 then []
    else
      let valid := subs.filter (fun i => (liveIds reg "sendMessage").contains i)
      if valid.length == 0 then []
      else
        (a.reactionsAdded.map (fun r =>
          ⟨valid, Body.reaction "add" r.type a a.fromId rid a.conversationId
            a.teamsChannelId a.timestamp⟩)) ++
        (a.reactionsRemoved.map (fun r =>
          ⟨valid, Body.reaction "remove" r.type a a.fromId rid a.conversationId
            a.teamsChannelId a.timestamp⟩))
  else []

/-- botHandler.ts lines 296-343 (handleInvokeActivity): with a truthy
explicit replyToId, subscribers of the events index under it that are
live sendMessage blocks receive one action send whose actionId is the
activity name and whose actionData is the value or the empty object. -/
def handleInvokeActivity (a : Activity) (kvA : KVApp) (reg : List Block) :
    List Send :=
  if strTruthy a.replyToId then
    let rid := a.replyToId.getD ""
    let subs := lookupSubs kvA ("events|" ++ rid ++ "|")
    if subs.length == 0 then []
    else
      let valid := subs.filter (fun i => (liveIds reg "sendMessage").contains i)
      if valid.length == 0 then []
      else
        [⟨valid, Body.action a.name (a.value.getD "") a a.fromId rid
          a.conversationId a.timestamp⟩]
  else []

/-- botHandler.ts lines 33-59 (handleBotActivity): routing on the
activity type string. -/
def handleBotActivity (a : Activity) (botId : String) (kvA : KVApp)
    (reg : List Block) : List Send :=
  if a.type == "message" then handleMessageActivity a botId kvA reg
  else if a.type == "messageReaction" then handleReactionActivity a kvA reg
  else if a.type == "conversationUpdate" then []
  else if a.type == "invoke" then handleInvokeActivity a kvA reg
  else []

/-! ### Registration and the handle-local parent-event mapping -/

/-- sendMessage.ts lines 96-103: after a successful send, store the
anchor to originating-event-id pair in the handle-local scope and the
events index marker in the shared scope. -/
def sendMessageRegister (kvB : KVBlock) (kvA : KVApp)
    (activityId eventId blockId : String) : KVBlock × KVApp :=
  (kvSet kvB activityId eventId, registerIndex kvA "events" activityId blockId)

/-- subscribeToReplies.ts lines 24-32: on subscription, store the
conversation-id to originating-event-id pair in the handle-local scope
and the replies index marker in the shared scope. -/
def subscribeToRepliesRegister (kvB : KVBlock) (kvA : KVApp)
    (conversationId eventId blockId : String) : KVBlock × KVApp :=
  (kvSet kvB conversationId eventId,
   registerIndex kvA "replies" conversationId blockId)

/-- Read of the handle-local anchor to originating-event-id mapping
(kv.block.get in both internal-message handlers). -/
def resolveParentEvent (kvB : KVBlock) (anchor : String) : Option String :=
  kvGet kvB anchor

/-! ### Internal-message handlers of the subscriber blocks -/

/-- One event emitted by sendMessage.onInternalMessage: the parent event
id plus the flattened union of the reaction and action payload fields. -/
structure InternalEmit where
  parentEventId : String
  eventType : String
  userId : Option String
  activityId : Option String
  conversationId : Option String
  timestamp : Option String
  reactionType : Option String
  action : Option String
  actionId : Option String
  actionData : Option String
deriving DecidableEq, Repr

/-- sendMessage.ts lines 113-151 (onInternalMessage): look up the parent
event id under data.activityId in the handle-local scope; a falsy result
returns with no emission; otherwise emit one event for a reaction body
and one for an action body. -/
def sendMessageOnInternal (kvB : KVBlock) (data : Body) : List InternalEmit :=
  let pid := match bodyActivityId data with
    | some aid => kvGet kvB aid
    | none => none
  match pid with
  | none => []
  | some parentEventId =>
    if parentEventId == "" then []
    else
      (if bodyTypeOf data == "reaction" then
        [⟨parentEventId, bodyTypeOf data, bodyFromId data, bodyActivityId data,
          bodyConversationId data, bodyTimestamp data, bodyReactionType data,
          bodyAction data, none, none⟩]
      else []) ++
      (if bodyTypeOf data == "action" then
        [⟨parentEventId, bodyTypeOf data, bodyFromId data, bodyActivityId data,
          bodyConversationId data, bodyTimestamp data, none, none,
          bodyActionId data, bodyActionData data⟩]
      else [])

/-- One event emitted by subscribeToReplies.onInternalMessage. -/
structure ReplyEmit where
  parentEventId : String
  text : Option String
  userId : Option String
  userName : Option String
  activityId : Option String
  timestamp : Option String
deriving DecidableEq, Repr

/-- subscribeToReplies.ts lines 36-60 (onInternalMessage): look up the
parent event id under data.conversationId in the handle-local scope; a
falsy result returns with no emission; otherwise emit one reply event. -/
def subscribeToRepliesOnInternal (kvB : KVBlock) (data : Body) :
    List ReplyEmit :=
  let pid := match bodyConversationId data with
    | some cid => kvGet kvB cid
    | none => none
  match pid with
  | none => []
  | some parentEventId =>
    if parentEventId == "" then []
    else
      [⟨parentEventId, bodyText data, bodyFromId data,
        (bodyActivity data).fromName, (bodyActivity data).id,
        bodyTimestamp data⟩]

/-! ### Helper lemmas about the store and the string primitives -/

theorem kvGet_kvSet_self (st : List (String × α)) (k : String) (v : α) :
    kvGet (kvSet st k v) k = some v := by
  induction st with
  | nil => simp [kvSet, kvGet]
  | cons p rest ih =>
    by_cases h : p.1 = k
    · simp [kvSet, kvGet, h]
    · simp [kvSet, kvGet, h, ih]

theorem kvSet_idem (st : List (String × α)) (k : String) (v : α) :
    kvSet (kvSet st k v) k v = kvSet st k v := by
  induction st with
  | nil => simp [kvSet]
  | cons p rest ih =>
    by_cases h : p.1 = k
    · simp [kvSet, h]
    · simp [kvSet, h, ih]

theorem isPrefixOf_append (xs ys : List Char) : xs.isPrefixOf (xs ++ ys) = true := by
  induction xs with
  | nil => simp [List.isPrefixOf]
  | cons c t ih => simp [List.isPrefixOf, ih]

theorem splitCharsOn_ne_nil (sep : Char) (l : List Char) :
    splitCharsOn sep l ≠ [] := by
  cases l with
  | nil => simp [splitCharsOn]
  | cons c cs =>
    simp only [splitCharsOn]
    cases h : splitCharsOn sep cs with
    | nil => simp
    | cons a t =>
      split
      · simp
      · split <;> simp

theorem splitCharsOn_no_sep (sep : Char) (xs : List Char) (h : sep ∉ xs) :
    splitCharsOn sep xs = [xs] := by
  induction xs with
  | nil => rfl
  | cons c cs ih =>
    simp only [List.mem_cons, not_or] at h
    have hne : (c == sep) = false := by
      simp only [beq_eq_false_iff_ne]
      exact fun hcc => h.1 hcc.symm
    simp [splitCharsOn, ih h.2, hne]

theorem splitCharsOn_append_sep (sep : Char) (xs rest : List Char)
    (h : sep ∉ xs) :
    splitCharsOn sep (xs ++ sep :: rest) = xs :: splitCharsOn sep rest := by
  induction xs with
  | nil =>
    simp only [List.nil_append]
    cases hr : splitCharsOn sep rest with
    | nil => exact absurd hr (splitCharsOn_ne_nil sep rest)
    | cons a t => simp [splitCharsOn, hr]
  | cons c cs ih =>
    simp only [List.mem_cons, not_or] at h
    have hne : (c == sep) = false := by
      simp only [beq_eq_false_iff_ne]
      exact fun hcc => h.1 hcc.symm
    simp [splitCharsOn, ih h.2, hne]

theorem string_mk_data (s : String) : String.mk s.data = s := rfl

theorem key_data (ns anchor sub : String) :
    (ns ++ "|" ++ anchor ++ "|" ++ sub).data
      = ns.data ++ '|' :: (anchor.data ++ '|' :: sub.data) := by
  simp [String.data_append]

theorem splitSeg_key (ns anchor sub : String) (h1 : '|' ∉ ns.data)
    (h2 : '|' ∉ anchor.data) (h3 : '|' ∉ sub.data) :
    splitSeg (ns ++ "|" ++ anchor ++ "|" ++ sub) = sub := by
  unfold splitSeg
  rw [key_data, splitCharsOn_append_sep _ _ _ h1,
      splitCharsOn_append_sep _ _ _ h2, splitCharsOn_no_sep _ _ h3]
  simp [string_mk_data]

theorem strStartsWith_append (pfx sub : String) :
    strStartsWith (pfx ++ sub) pfx = true := by
  unfold strStartsWith
  rw [String.data_append]
  exact isPrefixOf_append _ _

/-! ### Concrete scenario values -/

/-- A minimal activity record; concrete scenarios override its fields. -/
def baseAct : Activity :=
  { type := "message", id := none, replyToId := none, conversationId := none,
    fromId := none, fromName := none, name := none, text := none, value := none,
    entities := [], reactionsAdded := [], reactionsRemoved := [],
    teamsChannelId := none, timestamp := none }

/-! ### Claim theorems -/

/-- Claim C1, counterexample. The claim asserts write-once semantics for
the anchor to originating-event-id mapping. In the source both
registrations store with a plain kv.block.set, which overwrites: after
registering anchor convA with originating event eventA and re-registering
the same anchor with eventB, resolveParentEvent returns eventB, not the
first value eventA. -/
theorem c1_write_once_counterexample :
    resolveParentEvent
      (subscribeToRepliesRegister
        (subscribeToRepliesRegister [] [] "convA" "eventA" "S1").1
        (subscribeToRepliesRegister [] [] "convA" "eventA" "S1").2
        "convA" "eventB" "S1").1 "convA" = some "eventB" ∧
    ¬ resolveParentEvent
      (subscribeToRepliesRegister
        (subscribeToRepliesRegister [] [] "convA" "eventA" "S1").1
        (subscribeToRepliesRegister [] [] "convA" "eventA" "S1").2
        "convA" "eventB" "S1").1 "convA" = some "eventA" := by
  decide

/-- Claim C1, amended: the parent-event mapping is last-write-wins, not
write-once. For every starting state, after registering an anchor with
one originating event and re-registering the same anchor with another,
resolveParentEvent returns the most recently registered event id, for
both registration operations. -/
theorem c1_last_write_wins (kvB : KVBlock) (kvA : KVApp)
    (anchor e1 e2 b1 b2 : String) :
    resolveParentEvent
      (subscribeToRepliesRegister
        (subscribeToRepliesRegister kvB kvA anchor e1 b1).1
        (subscribeToRepliesRegister kvB kvA anchor e1 b1).2
        anchor e2 b2).1 anchor = some e2 ∧
    resolveParentEvent
      (sendMessageRegister
        (sendMessageRegister kvB kvA anchor e1 b1).1
        (sendMessageRegister kvB kvA anchor e1 b1).2
        anchor e2 b2).1 anchor = some e2 := by
  constructor <;>
    simp [resolveParentEvent, subscribeToRepliesRegister, sendMessageRegister,
      kvGet_kvSet_self]

/-- Claim C5: registering the same (namespace, anchor, subscriberId)
composite twice leaves the subscription index in the same state as a
single registration (so lookup returns the same list), and from an empty
store a registration makes lookup return exactly that one subscriber id,
provided the components contain no pipe separator (as namespaces and
Teams ids do not). -/
theorem c5_register_idempotent (kvA : KVApp) (ns anchor sub : String)
    (h1 : '|' ∉ ns.data) (h2 : '|' ∉ anchor.data) (h3 : '|' ∉ sub.data) :
    registerIndex (registerIndex kvA ns anchor sub) ns anchor sub
      = registerIndex kvA ns anchor sub ∧
    lookupIndex (registerIndex (registerIndex kvA ns anchor sub) ns anchor sub)
        ns anchor
      = lookupIndex (registerIndex kvA ns anchor sub) ns anchor ∧
    lookupIndex (registerIndex [] ns anchor sub) ns anchor = [sub] := by
  have hstate : registerIndex (registerIndex kvA ns anchor sub) ns anchor sub
      = registerIndex kvA ns anchor sub := kvSet_idem _ _ _
  refine ⟨hstate, by rw [hstate], ?_⟩
  show lookupSubs [(ns ++ "|" ++ anchor ++ "|" ++ sub, true)]
        (ns ++ "|" ++ anchor ++ "|") = [sub]
  have hkey : ns ++ "|" ++ anchor ++ "|" ++ sub
      = (ns ++ "|" ++ anchor ++ "|") ++ sub := rfl
  simp [lookupSubs, kvListPfx, hkey, strStartsWith_append]
  rw [← hkey]
  exact splitSeg_key ns anchor sub h1 h2 h3

/-- Claim C5, witness at the concrete composite (events, 3, blockX). -/
theorem c5_register_idempotent_witness :
    lookupIndex (registerIndex (registerIndex [] "events" "3" "blockX")
        "events" "3" "blockX") "events" "3"
      = lookupIndex (registerIndex [] "events" "3" "blockX") "events" "3" ∧
    lookupIndex (registerIndex [] "events" "3" "blockX") "events" "3"
      = ["blockX"] :=
  ⟨(c5_register_idempotent [] "events" "3" "blockX" (by decide) (by decide)
      (by decide)).2.1,
   (c5_register_idempotent [] "events" "3" "blockX" (by decide) (by decide)
      (by decide)).2.2⟩

/-- Claim C7: an anchor with no recorded originating-event-id makes both
internal-message handlers a silent no-op: zero events are emitted (the
handlers are total functions, so no error is raised), whether the lookup
returns absent or the bodys correlation field itself is absent; and on
the empty handle-local store resolveParentEvent is absent for every
anchor, as before any registration. -/
theorem c7_absent_parent_noop (kvB : KVBlock) (data : Body) :
    (∀ aid, bodyActivityId data = some aid → kvGet kvB aid = none →
      sendMessageOnInternal kvB data = []) ∧
    (bodyActivityId data = none → sendMessageOnInternal kvB data = []) ∧
    (∀ cid, bodyConversationId data = some cid → kvGet kvB cid = none →
      subscribeToRepliesOnInternal kvB data = []) ∧
    (bodyConversationId data = none →
      subscribeToRepliesOnInternal kvB data = []) ∧
    (∀ anchor, resolveParentEvent [] anchor = none) := by
  refine ⟨?_, ?_, ?_, ?_, fun _ => rfl⟩
  · intro aid ha hk
    simp [sendMessageOnInternal, ha, hk]
  · intro ha
    simp [sendMessageOnInternal, ha]
  · intro cid hc hk
    simp [subscribeToRepliesOnInternal, hc, hk]
  · intro hc
    simp [subscribeToRepliesOnInternal, hc]

/-- Claim C7, witness: a reaction body correlated to anchor 7 delivered
while the handle-local store is empty emits nothing. -/
theorem c7_absent_parent_noop_witness :
    sendMessageOnInternal []
      (Body.reaction "add" "like" baseAct (some "29:u1") "7" none none none)
      = [] ∧
    subscribeToRepliesOnInternal []
      (Body.reply baseAct (some "hi") (some "29:u1") "3" "conv1" none none)
      = [] :=
  ⟨(c7_absent_parent_noop []
      (Body.reaction "add" "like" baseAct (some "29:u1") "7" none none none)).1
      "7" rfl rfl,
   (c7_absent_parent_noop []
      (Body.reply baseAct (some "hi") (some "29:u1") "3" "conv1" none none)).2.2.1
      "conv1" rfl rfl⟩

/-- Claim C10: the messageid conversation-id fallback exists only in the
message handler; a reaction or invoke activity whose explicit replyToId
is absent is a silent no-op (zero sends), even when its conversation id
encodes a parent message id matching the messageid pattern. -/
theorem c10_fallback_only_messages (a : Activity) (kvA : KVApp)
    (reg : List Block) (cid m : String) (h1 : a.replyToId = none)
    (h2 : a.conversationId = some cid) (h3 : findMsgId cid = some m) :
    handleReactionActivity a kvA reg = [] ∧
    handleInvokeActivity a kvA reg = [] := by
  constructor <;>
    simp [handleReactionActivity, handleInvokeActivity, h1, strTruthy]

/-- Claim C10, witness: a reaction activity and an invoke activity with
no replyToId and conversation id 19:x;messageid=42 produce no sends even
with a matching registration and a live subscriber. -/
theorem c10_fallback_only_messages_witness :
    handleReactionActivity
      { baseAct with
        type := "messageReaction",
        conversationId := some "19:x;messageid=42", id := some "5",
        reactionsAdded := [⟨"like"⟩] }
      [("events|42|S1", true)] [⟨"S1", "sendMessage", none⟩] = [] ∧
    handleInvokeActivity
      { baseAct with
        type := "invoke",
        conversationId := some "19:x;messageid=42", id := some "5",
        value := some "v" }
      [("events|42|S1", true)] [⟨"S1", "sendMessage", none⟩] = [] :=
  ⟨(c10_fallback_only_messages _ _ _ "19:x;messageid=42" "42" rfl rfl
      (by decide)).1,
   (c10_fallback_only_messages _ _ _ "19:x;messageid=42" "42" rfl rfl
      (by decide)).2⟩

/-- Deliveries of sends that all target the same id list: one delivery
per send per targeted id. -/
theorem deliveries_const_len (v : List String) (sends : List Send)
    (h : ∀ s ∈ sends, s.blockIds = v) :
    (deliveries sends).length = sends.length * v.length := by
  induction sends with
  | nil => simp [deliveries]
  | cons s t ih =>
    have hs := h s (List.mem_cons_self s t)
    have ht : ∀ x ∈ t, x.blockIds = v := fun x hx => h x (List.mem_cons_of_mem s hx)
    have ih' := ih ht
    simp only [deliveries, List.flatMap_cons, List.length_append,
      List.length_map, List.length_cons, hs] at ih' ⊢
    rw [ih', Nat.succ_mul, Nat.add_comm]

/-- Concrete scenario of claim C8: one added like reaction on anchor 7
with two live subscribers S1 and S2. -/
def c8Act : Activity := { baseAct with
  type := "messageReaction", id := some "99", replyToId := some "7",
  conversationId := some "conv1", fromId := some "29:u1",
  reactionsAdded := [⟨"like"⟩] }

def c8KV : KVApp := [("events|7|S1", true), ("events|7|S2", true)]

def c8Reg : List Block :=
  [⟨"S1", "sendMessage", none⟩, ⟨"S2", "sendMessage", none⟩]

/-- Claim C8: for a reaction activity with a truthy reply target and a
non-empty live subscriber intersection, the handler emits the added
reactions in list order followed by the removed reactions in list order,
one send per individual reaction change, each targeting the whole live
intersection; so the per-subscriber delivery count is the number of
reaction changes times the number of live subscribers. -/
theorem c8_per_reaction_fanout (a : Activity) (kvA : KVApp) (reg : List Block)
    (rid : String) (h1 : a.replyToId = some rid) (h2 : rid ≠ "")
    (h3 : (lookupSubs kvA ("events|" ++ rid ++ "|")).filter
        (fun i => (liveIds reg "sendMessage").contains i) ≠ []) :
    handleReactionActivity a kvA reg =
      (a.reactionsAdded.map (fun r =>
        ⟨(lookupSubs kvA ("events|" ++ rid ++ "|")).filter
            (fun i => (liveIds reg "sendMessage").contains i),
          Body.reaction "add" r.type a a.fromId rid a.conversationId
            a.teamsChannelId a.timestamp⟩)) ++
      (a.reactionsRemoved.map (fun r =>
        ⟨(lookupSubs kvA ("events|" ++ rid ++ "|")).filter
            (fun i => (liveIds reg "sendMessage").contains i),
          Body.reaction "remove" r.type a a.fromId rid a.conversationId
            a.teamsChannelId a.timestamp⟩)) ∧
    (deliveries (handleReactionActivity a kvA reg)).length =
      (a.reactionsAdded.length + a.reactionsRemoved.length) *
        ((lookupSubs kvA ("events|" ++ rid ++ "|")).filter
          (fun i => (liveIds reg "sendMessage").contains i)).length := by
  have hsubs : lookupSubs kvA ("events|" ++ rid ++ "|") ≠ [] := by
    intro he
    apply h3
    rw [he]
    rfl
  have hlen : ¬ (lookupSubs kvA ("events|" ++ rid ++ "|")).length = 0 := by
    simpa [List.length_eq_zero] using hsubs
  have hvlen : ¬ ((lookupSubs kvA ("events|" ++ rid ++ "|")).filter
      (fun i => (liveIds reg "sendMessage").contains i)).length = 0 := by
    simpa [List.length_eq_zero] using h3
  have hmain : handleReactionActivity a kvA reg =
      (a.reactionsAdded.map (fun r =>
        ⟨(lookupSubs kvA ("events|" ++ rid ++ "|")).filter
            (fun i => (liveIds reg "sendMessage").contains i),
          Body.reaction "add" r.type a a.fromId rid a.conversationId
            a.teamsChannelId a.timestamp⟩)) ++
      (a.reactionsRemoved.map (fun r =>
        ⟨(lookupSubs kvA ("events|" ++ rid ++ "|")).filter
            (fun i => (liveIds reg "sendMessage").contains i),
          Body.reaction "remove" r.type a a.fromId rid a.conversationId
            a.teamsChannelId a.timestamp⟩)) := by
    simp only [handleReactionActivity, h1, Option.getD_some]
    split
    · split
      · rename_i hT
        exact absurd (by simpa [List.length_eq_zero] using hT) hsubs
      · split
        · rename_i hT
          exact absurd (by simpa [List.length_eq_zero] using hT) h3
        · rfl
    · rename_i hF
      exact absurd (by simp [strTruthy, h2]) hF
  refine ⟨hmain, ?_⟩
  rw [hmain, deliveries_const_len
    ((lookupSubs kvA ("events|" ++ rid ++ "|")).filter
      (fun i => (liveIds reg "sendMessage").contains i)) _ ?_]
  · simp
  · intro s hs
    rcases List.mem_append.mp hs with h | h <;>
      · obtain ⟨r, _, rfl⟩ := List.mem_map.mp h
        rfl

/-- Claim C8, witness at the specification scenario: one added like
reaction, no removals, anchor 7, two live subscribers: one send to both
subscribers carrying add/like, hence exactly two per-subscriber
deliveries. -/
theorem c8_per_reaction_fanout_witness :
    handleReactionActivity c8Act c8KV c8Reg
      = [⟨["S1", "S2"], Body.reaction "add" "like" c8Act (some "29:u1") "7"
          (some "conv1") none none⟩] ∧
    (deliveries (handleReactionActivity c8Act c8KV c8Reg)).length = 2 :=
  ⟨((c8_per_reaction_fanout c8Act c8KV c8Reg "7" rfl (by decide)
      (by decide)).1).trans (by decide),
   ((c8_per_reaction_fanout c8Act c8KV c8Reg "7" rfl (by decide)
      (by decide)).2).trans (by decide)⟩

/-- Every send of the reaction handler targets the live intersection. -/
theorem reaction_sends_blockIds (a : Activity) (kvA : KVApp) (reg : List Block) :
    ∀ s ∈ handleReactionActivity a kvA reg,
      s.blockIds = (lookupSubs kvA
          ("events|" ++ a.replyToId.getD "" ++ "|")).filter
        (fun i => (liveIds reg "sendMessage").contains i) := by
  intro s hs
  simp only [handleReactionActivity] at hs
  split at hs
  · split at hs
    · simp at hs
    · split at hs
      · simp at hs
      · rcases List.mem_append.mp hs with h | h <;>
          · obtain ⟨r, _, rfl⟩ := List.mem_map.mp h
            rfl
  · simp at hs

/-- An empty live intersection makes the reaction handler emit nothing. -/
theorem reaction_sends_empty (a : Activity) (kvA : KVApp) (reg : List Block)
    (h : (lookupSubs kvA ("events|" ++ a.replyToId.getD "" ++ "|")).filter
        (fun i => (liveIds reg "sendMessage").contains i) = []) :
    handleReactionActivity a kvA reg = [] := by
  simp only [handleReactionActivity]
  split
  · split
    · rfl
    · split
      · rfl
      · rename_i hv
        exact absurd (by simpa [List.length_eq_zero] using h) hv
  · rfl

/-- Every send of the invoke handler targets the live intersection. -/
theorem invoke_sends_blockIds (a : Activity) (kvA : KVApp) (reg : List Block) :
    ∀ s ∈ handleInvokeActivity a kvA reg,
      s.blockIds = (lookupSubs kvA
          ("events|" ++ a.replyToId.getD "" ++ "|")).filter
        (fun i => (liveIds reg "sendMessage").contains i) := by
  intro s hs
  simp only [handleInvokeActivity] at hs
  split at hs
  · split at hs
    · simp at hs
    · split at hs
      · simp at hs
      · simp only [List.mem_singleton] at hs
        subst hs
        rfl
  · simp at hs

/-- An empty live intersection makes the invoke handler emit nothing. -/
theorem invoke_sends_empty (a : Activity) (kvA : KVApp) (reg : List Block)
    (h : (lookupSubs kvA ("events|" ++ a.replyToId.getD "" ++ "|")).filter
        (fun i => (liveIds reg "sendMessage").contains i) = []) :
    handleInvokeActivity a kvA reg = [] := by
  simp only [handleInvokeActivity]
  split
  · split
    · rfl
    · split
      · rfl
      · rename_i hv
        exact absurd (by simpa [List.length_eq_zero] using h) hv
  · rfl

/-- Every action-bodied send of the reply part of the message handler
targets the live sendMessage intersection of the events index under the
derived reply target. -/
theorem replySends_action_blockIds (a : Activity) (botId : String)
    (kvA : KVApp) (reg : List Block) :
    ∀ s ∈ replySends a botId kvA reg, bodyTypeOf s.body = "action" →
      s.blockIds = (lookupSubs kvA
          ("events|" ++ (messageReplyTargetId a).getD "" ++ "|")).filter
        (fun i => (liveIds reg "sendMessage").contains i) := by
  intro s hs hty
  simp only [replySends] at hs
  split at hs
  · split at hs
    · simp at hs
    · split at hs
      · split at hs
        · split at hs
          · simp only [List.mem_singleton] at hs
            subst hs
            rfl
          · simp at hs
        · simp at hs
      · split at hs
        · split at hs
          · split at hs
            · split at hs
              · simp only [List.mem_singleton] at hs
                subst hs
                simp [bodyTypeOf] at hty
              · simp at hs
            · simp at hs
          · simp at hs
        · simp at hs
  · simp at hs

/-- Every reply-bodied send of the reply part of the message handler
targets the live threadSubscription intersection of the replies index
under the activity conversation id. -/
theorem replySends_reply_blockIds (a : Activity) (botId : String)
    (kvA : KVApp) (reg : List Block) :
    ∀ s ∈ replySends a botId kvA reg, bodyTypeOf s.body = "reply" →
      ∃ cid, a.conversationId = some cid ∧
        s.blockIds = (lookupSubs kvA ("replies|" ++ cid ++ "|")).filter
          (fun i => (liveIds reg "threadSubscription").contains i) := by
  intro s hs hty
  simp only [replySends] at hs
  split at hs
  · split at hs
    · simp at hs
    · split at hs
      · split at hs
        · split at hs
          · simp only [List.mem_singleton] at hs
            subst hs
            simp [bodyTypeOf] at hty
          · simp at hs
        · simp at hs
      · split at hs
        · rename_i cid hcid
          split at hs
          · split at hs
            · split at hs
              · simp only [List.mem_singleton] at hs
                subst hs
                exact ⟨cid, hcid, rfl⟩
              · simp at hs
            · simp at hs
          · simp at hs
        · simp at hs
  · simp at hs

/-- No send of the message handler targets an empty id list. -/
theorem message_sends_nonempty (a : Activity) (botId : String) (kvA : KVApp)
    (reg : List Block) :
    ∀ s ∈ handleMessageActivity a botId kvA reg, s.blockIds ≠ [] := by
  intro s hs
  simp only [handleMessageActivity] at hs
  rcases List.mem_append.mp hs with h | h
  · simp only [mentionSends] at h
    split at h
    · split at h
      · split at h
        · rename_i ht
          simp only [List.mem_singleton] at h
          subst h
          exact List.length_pos.mp ht
        · simp at h
      · simp at h
    · simp at h
  · simp only [replySends] at h
    split at h
    · split at h
      · simp at h
      · split at h
        · split at h
          · split at h
            · rename_i hv
              simp only [List.mem_singleton] at h
              subst h
              exact List.length_pos.mp hv
            · simp at h
          · simp at h
        · split at h
          · split at h
            · split at h
              · split at h
                · rename_i hv
                  simp only [List.mem_singleton] at h
                  subst h
                  exact List.length_pos.mp hv
                · simp at h
              · simp at h
            · simp at h
          · simp at h
    · simp at h

/-- No send of the reaction handler targets an empty id list. -/
theorem reaction_sends_nonempty (a : Activity) (kvA : KVApp)
    (reg : List Block) :
    ∀ s ∈ handleReactionActivity a kvA reg, s.blockIds ≠ [] := by
  intro s hs
  have hb := reaction_sends_blockIds a kvA reg s hs
  simp only [handleReactionActivity] at hs
  split at hs
  · split at hs
    · simp at hs
    · split at hs
      · simp at hs
      · rename_i hv
        rw [hb]
        intro he
        exact hv (by rw [he]; rfl)
  · simp at hs

/-- No send of the invoke handler targets an empty id list. -/
theorem invoke_sends_nonempty (a : Activity) (kvA : KVApp)
    (reg : List Block) :
    ∀ s ∈ handleInvokeActivity a kvA reg, s.blockIds ≠ [] := by
  intro s hs
  have hb := invoke_sends_blockIds a kvA reg s hs
  simp only [handleInvokeActivity] at hs
  split at hs
  · split at hs
    · simp at hs
    · split at hs
      · simp at hs
      · rename_i hv
        rw [hb]
        intro he
        exact hv (by rw [he]; rfl)
  · simp at hs

/-- Concrete scenario of claim C6: subscribers S1 and S2 registered in
the index under anchor A, S2 since removed from the registry. -/
def c6Act : Activity := { baseAct with
  type := "messageReaction", id := some "9", replyToId := some "A",
  reactionsAdded := [⟨"like"⟩] }

def c6KV : KVApp := [("events|A|S1", true), ("events|A|S2", true)]

def c6Reg : List Block := [⟨"S1", "sendMessage", none⟩]

/-- Claim C6: every Reply, Action or Reaction send targets exactly the
intersection of the indexed subscriber ids under the derived key prefix
with the live registry ids of the relevant capability type (sendMessage
blocks for Action and Reaction, threadSubscription blocks for Reply); an
empty intersection yields no sends at all; and no send ever targets an
empty id list. -/
theorem c6_liveness_filter (a : Activity) (botId : String) (kvA : KVApp)
    (reg : List Block) :
    (∀ s ∈ handleReactionActivity a kvA reg,
      s.blockIds = (lookupSubs kvA
          ("events|" ++ a.replyToId.getD "" ++ "|")).filter
        (fun i => (liveIds reg "sendMessage").contains i)) ∧
    ((lookupSubs kvA ("events|" ++ a.replyToId.getD "" ++ "|")).filter
        (fun i => (liveIds reg "sendMessage").contains i) = [] →
      handleReactionActivity a kvA reg = []) ∧
    (∀ s ∈ handleInvokeActivity a kvA reg,
      s.blockIds = (lookupSubs kvA
          ("events|" ++ a.replyToId.getD "" ++ "|")).filter
        (fun i => (liveIds reg "sendMessage").contains i)) ∧
    ((lookupSubs kvA ("events|" ++ a.replyToId.getD "" ++ "|")).filter
        (fun i => (liveIds reg "sendMessage").contains i) = [] →
      handleInvokeActivity a kvA reg = []) ∧
    (∀ s ∈ replySends a botId kvA reg, bodyTypeOf s.body = "action" →
      s.blockIds = (lookupSubs kvA
          ("events|" ++ (messageReplyTargetId a).getD "" ++ "|")).filter
        (fun i => (liveIds reg "sendMessage").contains i)) ∧
    (∀ s ∈ replySends a botId kvA reg, bodyTypeOf s.body = "reply" →
      ∃ cid, a.conversationId = some cid ∧
        s.blockIds = (lookupSubs kvA ("replies|" ++ cid ++ "|")).filter
          (fun i => (liveIds reg "threadSubscription").contains i)) ∧
    (∀ s ∈ handleMessageActivity a botId kvA reg, s.blockIds ≠ []) ∧
    (∀ s ∈ handleReactionActivity a kvA reg, s.blockIds ≠ []) ∧
    (∀ s ∈ handleInvokeActivity a kvA reg, s.blockIds ≠ []) :=
  ⟨reaction_sends_blockIds a kvA reg, reaction_sends_empty a kvA reg,
   invoke_sends_blockIds a kvA reg, invoke_sends_empty a kvA reg,
   replySends_action_blockIds a botId kvA reg,
   replySends_reply_blockIds a botId kvA reg,
   message_sends_nonempty a botId kvA reg,
   reaction_sends_nonempty a kvA reg, invoke_sends_nonempty a kvA reg⟩

/-- Claim C6, witness at the specification scenario: S1 and S2 indexed
under anchor A, S2 since deleted from the registry: the one emitted send
delivers to S1 only, and its target list is the index-registry
intersection. -/
theorem c6_liveness_filter_witness :
    handleReactionActivity c6Act c6KV c6Reg
      = [⟨["S1"], Body.reaction "add" "like" c6Act none "A" none none none⟩] ∧
    (⟨["S1"], Body.reaction "add" "like" c6Act none "A" none none
        none⟩ : Send).blockIds
      = (lookupSubs c6KV
          ("events|" ++ c6Act.replyToId.getD "" ++ "|")).filter
        (fun i => (liveIds c6Reg "sendMessage").contains i) :=
  ⟨by decide,
   (c6_liveness_filter c6Act "28:b" c6KV c6Reg).1 _ (by decide)⟩

/-- Concrete scenario of claim C2: a message whose explicit replyToId
equals its own activity id, with a live thread subscriber. -/
def c2Act : Activity := { baseAct with
  id := some "5", replyToId := some "5", conversationId := some "conv1",
  fromId := some "29:u1", text := some "hi" }

def c2KV : KVApp := [("replies|conv1|S1", true)]

def c2Reg : List Block := [⟨"S1", "threadSubscription", none⟩]

/-- Claim C2, counterexample. The self-reference guard exists only on
the conversation-id fallback path: a message activity whose explicit
replyToId field equals its own id is still classified and dispatched as
a Reply (the derived reply target equals the activity id, yet one reply
send is emitted). -/
theorem c2_self_reference_counterexample :
    messageReplyTargetId c2Act = c2Act.id ∧ c2Act.id = some "5" ∧
    (handleMessageActivity c2Act "28:botapp" c2KV c2Reg).map
      (fun s => bodyTypeOf s.body) = ["reply"] := by
  decide

/-- Claim C2, amended: the self-reference guard holds only for the
parsed conversation-id fallback. When the explicit replyToId is absent
and every messageid value parsed from the conversation id equals the
activity id, no reply target is derived, so the reply part of the
message handler emits nothing and the handler reduces to its mention
part; an explicit replyToId equal to the own id is not guarded (see the
counterexample). -/
theorem c2_guard_parsed_only (a : Activity) (botId : String) (kvA : KVApp)
    (reg : List Block) (aid : String) (h1 : a.replyToId = none)
    (h2 : a.id = some aid)
    (h3 : ∀ cid m, a.conversationId = some cid → findMsgId cid = some m →
      m = aid) :
    messageReplyTargetId a = none ∧
    replySends a botId kvA reg = [] ∧
    handleMessageActivity a botId kvA reg = mentionSends a reg := by
  have hrt : messageReplyTargetId a = none := by
    simp only [messageReplyTargetId, h1, strTruthy, Bool.false_eq_true,
      if_false]
    split
    · rename_i cid aid2 hc hi
      split
      · cases hm : findMsgId cid with
        | none => rfl
        | some mid =>
          have hm2 := h3 cid mid hc hm
          have ha : aid2 = aid := by
            rw [h2] at hi
            injection hi with h
            exact h.symm
          have : mid = aid2 := hm2.trans ha.symm
          subst this
          simp
      · rfl
    · rfl
  have hrs : replySends a botId kvA reg = [] := by
    simp only [replySends, hrt]
    rfl
  exact ⟨hrt, hrs, by simp only [handleMessageActivity, hrs, List.append_nil]⟩

/-- Claim C2 amended, witness: no explicit replyToId, own id 5, and a
conversation id whose parsed messageid is also 5: the reply part emits
nothing. -/
theorem c2_guard_parsed_only_witness :
    messageReplyTargetId { baseAct with
      id := some "5", conversationId := some "19:x;messageid=5",
      fromId := some "29:u1" } = none ∧
    replySends { baseAct with
      id := some "5", conversationId := some "19:x;messageid=5",
      fromId := some "29:u1" } "28:botapp"
      [("replies|19:x;messageid=5|S1", true)]
      [⟨"S1", "threadSubscription", none⟩] = [] :=
  have h3 : ∀ cid m,
      ({ baseAct with
        id := some "5", conversationId := some "19:x;messageid=5",
        fromId := some "29:u1" } : Activity).conversationId = some cid →
      findMsgId cid = some m → m = "5" := by
    intro cid m hc hm
    have hc2 : (some "19:x;messageid=5" : Option String) = some cid := hc
    injection hc2 with h
    subst h
    have h5 : findMsgId "19:x;messageid=5" = some "5" := by decide
    rw [h5] at hm
    injection hm with h6
    exact h6.symm
  ⟨(c2_guard_parsed_only _ "28:botapp" [("replies|19:x;messageid=5|S1", true)]
      [⟨"S1", "threadSubscription", none⟩] "5" rfl rfl h3).1,
   (c2_guard_parsed_only _ "28:botapp" [("replies|19:x;messageid=5|S1", true)]
      [⟨"S1", "threadSubscription", none⟩] "5" rfl rfl h3).2.1⟩

/-- Concrete scenario of claim C3: a message that both mentions the bot
and replies in a subscribed thread. -/
def c3Act : Activity := { baseAct with
  id := some "9", replyToId := some "3", conversationId := some "conv1",
  fromId := some "29:u1", text := some "hi",
  entities := [⟨"mention", some "28:bot"⟩] }

def c3KV : KVApp := [("replies|conv1|T1", true)]

def c3Reg : List Block :=
  [⟨"M1", "mentionsSubscription", none⟩, ⟨"T1", "threadSubscription", none⟩]

/-- Claim C3, counterexample. The mention part of the message handler
does not return, so a message activity carrying both a bot mention and a
reply target is dispatched along the Mention path and additionally along
the Reply path: two sends for one activity. -/
theorem c3_exclusive_counterexample :
    (handleMessageActivity c3Act "28:botapp" c3KV c3Reg).map
      (fun s => bodyTypeOf s.body) = ["mention", "reply"] := by
  decide

/-- Claim C3, amended: each classification path dispatches at most once
per message activity with the matching body type, and the Action and
Reply sub-paths are mutually exclusive; but the Mention path and the
Reply-or-Action path are not exclusive with each other: the handler is
the concatenation of their sends (see the counterexample for an
activity dispatched on both). -/
theorem c3_per_path_at_most_once (a : Activity) (botId : String)
    (kvA : KVApp) (reg : List Block) :
    handleMessageActivity a botId kvA reg
      = mentionSends a reg ++ replySends a botId kvA reg ∧
    (mentionSends a reg).length ≤ 1 ∧
    (replySends a botId kvA reg).length ≤ 1 ∧
    (mentionSends a reg).all (fun s => bodyTypeOf s.body == "mention")
      = true ∧
    (replySends a botId kvA reg).all (fun s =>
      bodyTypeOf s.body == "action" || bodyTypeOf s.body == "reply") = true ∧
    (handleReactionActivity a kvA reg).all (fun s =>
      bodyTypeOf s.body == "reaction") = true ∧
    (handleInvokeActivity a kvA reg).all (fun s =>
      bodyTypeOf s.body == "action") = true := by
  refine ⟨rfl, ?_, ?_, ?_, ?_, ?_, ?_⟩
  · simp only [mentionSends]
    repeat' split
    all_goals simp
  · simp only [replySends]
    repeat' split
    all_goals simp
  · simp only [mentionSends]
    repeat' split
    all_goals simp [bodyTypeOf]
  · simp only [replySends]
    repeat' split
    all_goals simp [bodyTypeOf]
  · simp only [handleReactionActivity]
    repeat' split
    all_goals simp [bodyTypeOf]
  · simp only [handleInvokeActivity]
    repeat' split
    all_goals simp [bodyTypeOf]

/-- Concrete scenario of claim C4: the only mention entity references a
different bot (28:bbb) than this bot (28:aaa). -/
def c4Act : Activity := { baseAct with
  id := some "9", conversationId := some "conv1", fromId := some "29:u1",
  text := some "hey", entities := [⟨"mention", some "28:bbb"⟩] }

def c4Reg : List Block := [⟨"M1", "mentionsSubscription", none⟩]

/-- Claim C4, counterexample. The source tests only that a mentioned id
contains the bot-id prefix 28:, not that it references this bot: an
activity whose only mention entity references a different bot id 28:bbb
is still dispatched as a Mention when the bot id is 28:aaa, although no
entity carries the bot id and the bot app id aaa occurs nowhere in the
mentioned id. -/
theorem c4_other_bot_counterexample :
    (handleMessageActivity c4Act "28:aaa" [] c4Reg).map
      (fun s => bodyTypeOf s.body) = ["mention"] ∧
    c4Act.entities.all (fun e => e.mentionedId != some "28:aaa") = true ∧
    includesSub "28:bbb" "28:aaa" = false ∧
    includesSub "28:bbb" (stripBotPfx "28:aaa") = false := by
  decide

/-- Claim C4, amended: a message activity is dispatched along the
Mention path exactly when some mention entity has a mentioned id
containing the platform bot-id prefix 28: (any bot, not necessarily this
one) and at least one registered mention block passes the channel
filter. -/
theorem c4_mention_prefix_based (a : Activity) (reg : List Block) :
    (mentionSends a reg ≠ [] ↔
      (botMentioned a = true ∧ mentionTargets a.teamsChannelId reg ≠ [])) ∧
    (botMentioned a = true ↔ ∃ e ∈ a.entities, e.type = "mention" ∧
      ∃ i, e.mentionedId = some i ∧ includesSub i "28:" = true) := by
  constructor
  · constructor
    · intro hne
      simp only [mentionSends] at hne
      split at hne
      · rename_i hbm
        refine ⟨hbm, ?_⟩
        split at hne
        · split at hne
          · rename_i ht
            exact List.length_pos.mp ht
          · simp at hne
        · simp at hne
      · simp at hne
    · rintro ⟨hbm, htg⟩
      have hf0 : reg.filter (fun b => b.typeId == "mentionsSubscription")
          ≠ [] := by
        intro he
        apply htg
        simp [mentionTargets, he]
      simp only [mentionSends, hbm, if_true]
      rw [if_pos (List.length_pos.mpr hf0), if_pos (List.length_pos.mpr htg)]
      simp
  · simp only [botMentioned, List.any_eq_true, List.mem_filter]
    constructor
    · rintro ⟨m, ⟨hm, hty⟩, hpred⟩
      refine ⟨m, hm, by simpa using hty, ?_⟩
      cases hmi : m.mentionedId with
      | none => rw [hmi] at hpred; simp at hpred
      | some i => rw [hmi] at hpred; exact ⟨i, rfl, hpred⟩
    · rintro ⟨m, hm, hty, i, hmi, hinc⟩
      refine ⟨m, ⟨hm, by simp [hty]⟩, ?_⟩
      rw [hmi]
      exact hinc

/-- Claim C4 amended, witness: the concrete other-bot mention scenario
dispatches because its mentioned id contains the 28: prefix and an
unfiltered mention block is live. -/
theorem c4_mention_prefix_based_witness :
    mentionSends c4Act c4Reg ≠ [] ∧ botMentioned c4Act = true :=
  ⟨(c4_mention_prefix_based c4Act c4Reg).1.mpr ⟨by decide, by decide⟩,
   (c4_mention_prefix_based c4Act c4Reg).2.mpr
     ⟨⟨"mention", some "28:bbb"⟩, by decide, rfl, "28:bbb", rfl, by decide⟩⟩

/-- Concrete scenario of claim C9: subscriber S1 filtered to channel
19:abc, subscriber S2 unfiltered, mention arriving on channel 19:xyz. -/
def c9Act : Activity := { baseAct with
  text := some "hi", fromId := some "29:u1",
  entities := [⟨"mention", some "28:bot"⟩],
  teamsChannelId := some "19:xyz" }

def c9Reg : List Block :=
  [⟨"S1", "mentionsSubscription", some "19:abc"⟩,
   ⟨"S2", "mentionsSubscription", none⟩]

/-- Claim C9: on a mention dispatch, a mention block with no configured
channel scope (absent or empty, both falsy) is always targeted, and the
whole handler emits the mention send to the passing target list; a block
with a configured non-empty scope is targeted exactly when the scope
equals the activity channel id (uniqueness of registry ids makes the
exclusion direction sound). -/
theorem c9_mention_channel_filter (a : Activity) (botId : String)
    (kvA : KVApp) (reg : List Block) (b : Block)
    (hM : botMentioned a = true) (hb : b ∈ reg)
    (hty : b.typeId = "mentionsSubscription")
    (hnd : (reg.map Block.id).Nodup) :
    ((b.channelId = none ∨ b.channelId = some "") →
      (b.id ∈ mentionTargets a.teamsChannelId reg ∧
        handleMessageActivity a botId kvA reg =
          ⟨mentionTargets a.teamsChannelId reg,
            Body.mention a a.text a.fromId a.conversationId a.teamsChannelId
              a.timestamp⟩ :: replySends a botId kvA reg)) ∧
    (∀ sc, b.channelId = some sc → sc ≠ "" →
      (b.id ∈ mentionTargets a.teamsChannelId reg ↔
        a.teamsChannelId = some sc)) := by
  have hmem : ∀ hk : mentionBlockKeeps a.teamsChannelId b = true,
      b.id ∈ mentionTargets a.teamsChannelId reg := by
    intro hk
    apply List.mem_map_of_mem
    exact List.mem_filter.mpr
      ⟨List.mem_filter.mpr ⟨hb, by simp [hty]⟩, hk⟩
  constructor
  · intro h0
    have hk : mentionBlockKeeps a.teamsChannelId b = true := by
      rcases h0 with h0 | h0 <;> simp [mentionBlockKeeps, h0]
    have hmemT := hmem hk
    have htg : mentionTargets a.teamsChannelId reg ≠ [] :=
      List.ne_nil_of_mem hmemT
    have hf0 : reg.filter (fun x => x.typeId == "mentionsSubscription")
        ≠ [] := by
      intro he
      apply htg
      simp [mentionTargets, he]
    refine ⟨hmemT, ?_⟩
    simp only [handleMessageActivity, mentionSends, hM, if_true]
    rw [if_pos (List.length_pos.mpr hf0), if_pos (List.length_pos.mpr htg)]
    rfl
  · intro sc hsc hne
    constructor
    · intro hin
      obtain ⟨b2, hb2, hid⟩ := List.mem_map.mp hin
      have hb2f := List.mem_filter.mp hb2
      have hb2reg := (List.mem_filter.mp hb2f.1).1
      have hbb : b2 = b :=
        List.inj_on_of_nodup_map hnd hb2reg hb hid
      subst hbb
      have hk := hb2f.2
      simp only [mentionBlockKeeps, hsc] at hk
      rcases Bool.or_eq_true_iff.mp hk with hx | hx
      · exact absurd (by simpa using hx) hne
      · exact (beq_iff_eq.mp hx).symm
    · intro hchan
      apply hmem
      simp [mentionBlockKeeps, hsc, hchan]

/-- Claim C9, witness at the specification scenario: S1 with configured
scope 19:abc is excluded on channel 19:xyz while the unfiltered S2 still
receives the mention send. -/
theorem c9_mention_channel_filter_witness :
    ("S1" ∈ mentionTargets c9Act.teamsChannelId c9Reg ↔
      c9Act.teamsChannelId = some "19:abc") ∧
    "S2" ∈ mentionTargets c9Act.teamsChannelId c9Reg ∧
    "S1" ∉ mentionTargets c9Act.teamsChannelId c9Reg ∧
    handleMessageActivity c9Act "28:b" [] c9Reg =
      ⟨mentionTargets c9Act.teamsChannelId c9Reg,
        Body.mention c9Act c9Act.text c9Act.fromId c9Act.conversationId
          c9Act.teamsChannelId c9Act.timestamp⟩
        :: replySends c9Act "28:b" [] c9Reg :=
  ⟨(c9_mention_channel_filter c9Act "28:b" [] c9Reg
      ⟨"S1", "mentionsSubscription", some "19:abc"⟩ (by decide) (by decide)
      rfl (by decide)).2 "19:abc" rfl (by decide),
   ((c9_mention_channel_filter c9Act "28:b" [] c9Reg
      ⟨"S2", "mentionsSubscription", none⟩ (by decide) (by decide)
      rfl (by decide)).1 (Or.inl rfl)).1,
   by decide,
   ((c9_mention_channel_filter c9Act "28:b" [] c9Reg
      ⟨"S2", "mentionsSubscription", none⟩ (by decide) (by decide)
      rfl (by decide)).1 (Or.inl rfl)).2⟩

end TeamsBot
